import Mathlib

/-!
Shallow embedding of `src/dxf2price.ts` (repository kazmenkomark/dxf2price).

Numbers: the source computes with IEEE doubles; here coordinates live in an
arbitrary `LinearOrderedField K` (instantiated at `ℚ` for executable concrete
runs and at `ℝ` for the analytic statements).  The transcendental functions
used by the source (`Math.PI`, `Math.sqrt`, `Math.cos`, `Math.sin`,
`Math.acos`, `Math.atan`) are passed as an explicit `RealOps K` record; at
`K = ℝ` the record is the genuine real functions.

The external geometry kernel (`@flatten-js/core`: `Segment`, `Arc`, `Circle`,
`Polygon`, `isValid`, `area`, `contains`, `distanceTo`) is not code of this
repository; it is kept abstract as a `Kernel K P` record of operations, as the
spec prescribes ("consumed as an opaque geometry kernel").

JavaScript exceptions are modelled with `Except String`; `null`/`undefined`
data is modelled with `Option`.
-/

namespace Dxf2Price

/-- The record of analytic operations the source takes from `Math`. -/
structure RealOps (K : Type) where
  pi : K
  sqrt : K → K
  cos : K → K
  sin : K → K
  acos : K → K
  atan : K → K

/-- `interface Vertice` of the source: a planar point with optional `z` and
optional polyline `bulge` annotation. -/
structure Vertice (K : Type) where
  x : K
  y : K
  z : Option K := none
  bulge : Option K := none
deriving DecidableEq, Repr

/-- `interface Entity` of the source.  Optional numeric fields are `Option`s,
mirroring the TypeScript optional fields (`center?`, `radius?`, ...).  The
`polyline` back-pointer and `layer` of the source are never read and are
dropped.  `shape` is the closed-polyline marker. -/
structure Entity (K : Type) where
  etype : String
  vertices : List (Vertice K) := []
  center : Option (Vertice K) := none
  radius : Option K := none
  startAngle : Option K := none
  endAngle : Option K := none
  edges : Option (Vertice K × Vertice K) := none
  reverse : Bool := false
  shape : Bool := false
  clockwise : Bool := false
deriving DecidableEq, Repr

/-- `interface DxfData` (the `tables` field is never read and is dropped). -/
structure DxfData (K : Type) where
  entities : List (Entity K)
deriving DecidableEq, Repr

variable {K : Type} [LinearOrderedField K]

/-- Default vertex used to model reads of absent optional data. -/
def dfltV : Vertice K := { x := 0, y := 0 }

/-- `lineLength`: `Math.sqrt((p1.x-p2.x)^2 + (p1.y-p2.y)^2)`. -/
def lineLength (ops : RealOps K) (p1 p2 : Vertice K) : K :=
  ops.sqrt ((p1.x - p2.x) ^ 2 + (p1.y - p2.y) ^ 2)

/-- `calcEntityLength`: analytic perimeter contribution of one entity; throws
on an unknown entity type (modelled by `Except.error`). -/
def calcEntityLength (ops : RealOps K) (entity : Entity K) : Except String K :=
  if entity.etype = "ARC" then
    let angle0 : K := entity.endAngle.getD 0 - entity.startAngle.getD 0
    let angle1 : K := if angle0 < 0 then 2 * ops.pi + angle0 else angle0
    let angle2 : K := if entity.clockwise then 2 * ops.pi - angle1 else angle1
    .ok (angle2 * entity.radius.getD 0)
  else if entity.etype = "LINE" then
    let e := entity.edges.getD (dfltV, dfltV)
    .ok (lineLength ops e.1 e.2)
  else if entity.etype = "CIRCLE" then
    .ok (2 * ops.pi * entity.radius.getD 0)
  else
    .error "Unknown entity"

/-- `getArcPoint`: point on the circle of `center`/`radius` at `angle`. -/
def getArcPoint (ops : RealOps K) (center : Vertice K) (radius : K) (angle : K) :
    Vertice K :=
  { x := ops.cos angle * radius + center.x
    y := ops.sin angle * radius + center.y
    z := center.z }

/-- JavaScript truthiness of `vertice.bulge` (absent or `0` is falsy). -/
def bulgeTruthy (v : Vertice K) : Bool :=
  match v.bulge with
  | none => false
  | some b => decide (b ≠ 0)

/-- One entity step of `findEdges`: attach the two connector endpoints.  For a
closed polyline (explicit `shape` marker or trailing-vertex bulge) the first
vertex is appended again before the second edge is taken, mutating
`entity.vertices` — the appended copy is observed later by `transofrmEntity`. -/
def findEdgesEntity (ops : RealOps K) (e : Entity K) : Entity K :=
  if e.etype = "ARC" then
    let p0 := getArcPoint ops (e.center.getD dfltV) (e.radius.getD 0) (e.startAngle.getD 0)
    let p1 := getArcPoint ops (e.center.getD dfltV) (e.radius.getD 0) (e.endAngle.getD 0)
    { e with edges := some (p0, p1) }
  else if e.etype = "LINE" then
    { e with edges := some (e.vertices.getD 0 dfltV, e.vertices.getD 1 dfltV) }
  else if e.etype = "LWPOLYLINE" then
    let vs := if e.shape || bulgeTruthy (e.vertices.getLastD dfltV)
      then e.vertices ++ [e.vertices.getD 0 dfltV] else e.vertices
    { e with vertices := vs,
             edges := some (e.vertices.getD 0 dfltV, vs.getLastD dfltV) }
  else if e.etype = "CIRCLE" then
    let c := e.center.getD dfltV
    let p : Vertice K := { x := c.x + e.radius.getD 0, y := c.y }
    { e with edges := some (p, p) }
  else e

/-- `findEdges`: normalize every entity of the file. -/
def findEdges (ops : RealOps K) (data : DxfData K) : DxfData K :=
  ⟨data.entities.map (findEdgesEntity ops)⟩

/-- `const EQUAL_TRESHOLD: number = 0.01` (idealized to the exact `1/100`). -/
def EQUAL_TRESHOLD : K := 1 / 100

/-- `pointsAreEqual`: L1 distance below the threshold. -/
def pointsAreEqual (p1 p2 : Vertice K) : Bool :=
  decide (|p1.x - p2.x| + |p1.y - p2.y| < EQUAL_TRESHOLD)

/-- `swapEdges`: swap the two connector endpoints, marking `reverse`. -/
def swapEdges (entity : Entity K) : Entity K :=
  { entity with
      edges := entity.edges.map (fun e => (e.2, e.1)),
      reverse := true }

/-- `vectorAngle`: polar angle of the vector `p1 → p2`, in `[0, 2π)`. -/
def vectorAngle (ops : RealOps K) (p1 p2 : Vertice K) : K :=
  let angle := ops.acos ((p2.x - p1.x) / lineLength ops p1 p2)
  if p2.y < p1.y then 2 * ops.pi - angle else angle

/-- `cloneVertice`. -/
def cloneVertice (v : Vertice K) : Vertice K :=
  { x := v.x, y := v.y, z := v.z, bulge := v.bulge }

/-- `Math.sign` restricted to the non-NaN inputs the source feeds it. -/
def jsSign (x : K) : K :=
  if 0 < x then 1 else if x < 0 then -1 else 0

/-- One vertex pair of the polyline decurver (`transofrmEntity` loop body):
no bulge gives a `LINE`, a bulge gives the reconstructed `ARC`.  The
`polyline` back-pointer of the source is never read and is dropped. -/
def transofrmPair (ops : RealOps K) (verticeParam nextVerticeParam : Vertice K) :
    Entity K :=
  let vertice := cloneVertice verticeParam
  let nextVertice := cloneVertice nextVerticeParam
  if ¬ bulgeTruthy vertice then
    { etype := "LINE", vertices := [vertice, nextVertice],
      edges := some (vertice, nextVertice) }
  else
    let bulge : K := vertice.bulge.getD 0
    let halfSegment := lineLength ops vertice nextVertice / 2
    let aGamma := ops.pi / 2 - 2 * ops.atan |bulge|
    let radius := |halfSegment / ops.cos aGamma|
    let halfSegmentVertice : Vertice K :=
      { x := (vertice.x + nextVertice.x) / 2, y := (vertice.y + nextVertice.y) / 2 }
    let aBeta := vectorAngle ops vertice halfSegmentVertice
    let centerAngle := aBeta + aGamma * jsSign bulge
    let center : Vertice K :=
      { x := vertice.x + radius * ops.cos centerAngle
        y := vertice.y + radius * ops.sin centerAngle }
    { etype := "ARC",
      center := some center,
      radius := some radius,
      startAngle := some (vectorAngle ops center vertice),
      endAngle := some (vectorAngle ops center nextVertice),
      edges := some (vertice, nextVertice),
      clockwise := decide (jsSign bulge = -1) }

/-- `transofrmEntity`: split an `LWPOLYLINE` into lines and arcs (any other
entity passes through unchanged).  When the polyline was flipped by the
stitcher (`reverse`), the emitted sequence is reversed and each sub-entity's
edges are swapped. -/
def transofrmEntity (ops : RealOps K) (entity : Entity K) : List (Entity K) :=
  if entity.etype ≠ "LWPOLYLINE" then [entity]
  else
    let entities := (entity.vertices.zip entity.vertices.tail).map
      (fun pv => transofrmPair ops pv.1 pv.2)
    if entity.reverse then entities.reverse.map swapEdges else entities

/-- `interface Shape` of the source.  `endv` renders the source's `end` field
(a Lean keyword); `area`/`perimeter` are `0` until the measurer assigns them;
`polygon` is the owned kernel handle, absent until built. -/
structure Shape (K : Type) (P : Type) where
  entities : List (Entity K)
  start : Vertice K
  endv : Vertice K
  perimeter : K
  area : K
  main : Bool := false
  closed : Bool
  single : Bool
  polygon : Option P := none
  skippedIncludesCheck : Bool := false
deriving DecidableEq, Repr

instance : Inhabited (Shape K P) :=
  ⟨{ entities := [], start := dfltV, endv := dfltV, perimeter := 0, area := 0,
     closed := false, single := false }⟩

/-- `interface FindShapesResult`; `unknownEntities` is the tally object,
rendered as an association list in insertion order. -/
structure FindShapesResult (K : Type) (P : Type) where
  shapes : List (Shape K P)
  unknownEntities : List (String × ℕ)
deriving DecidableEq, Repr

/-- Which of the four endpoint tests (in source priority order) an entity
matched against the open shape. -/
inductive MatchKind : Type
  | edge0Start
  | edge0End
  | edge1Start
  | edge1End
deriving DecidableEq, Repr

/-- The four-way priority test of the stitcher's scan body (tested on the
entity's edges as they currently are, before any swap). -/
def matchEntity (st en : Vertice K) (e : Entity K) : Option MatchKind :=
  match e.edges with
  | none => none
  | some (e0, e1) =>
    if pointsAreEqual e0 st then some .edge0Start
    else if pointsAreEqual e0 en then some .edge0End
    else if pointsAreEqual e1 st then some .edge1Start
    else if pointsAreEqual e1 en then some .edge1End
    else none

/-- Scan the pool in index order for the first entity matching the open
shape's endpoints; return it, its match kind, and the pool with it removed
(`entities.splice(index, 1)`). -/
def findMatch (st en : Vertice K) :
    List (Entity K) → Option (Entity K × MatchKind × List (Entity K))
  | [] => none
  | e :: rest =>
    match matchEntity st en e with
    | some k => some (e, k, rest)
    | none =>
      match findMatch st en rest with
      | none => none
      | some t => some (t.1, t.2.1, e :: t.2.2)

/-- Attach a matched entity to the shape under construction, exactly as the
four branches of the source do (swap before decurve in the `edge0Start` and
`edge1End` branches; endpoint updates read the post-swap edges). -/
def attachEntity (ops : RealOps K) (shape : Shape K P) (e : Entity K)
    (k : MatchKind) : Shape K P :=
  match k with
  | .edge0Start =>
    let e' := swapEdges e
    { shape with entities := transofrmEntity ops e' ++ shape.entities,
                 start := (e'.edges.getD (dfltV, dfltV)).1 }
  | .edge0End =>
    { shape with entities := shape.entities ++ transofrmEntity ops e,
                 endv := (e.edges.getD (dfltV, dfltV)).2 }
  | .edge1Start =>
    { shape with entities := transofrmEntity ops e ++ shape.entities,
                 start := (e.edges.getD (dfltV, dfltV)).1 }
  | .edge1End =>
    let e' := swapEdges e
    { shape with entities := shape.entities ++ transofrmEntity ops e',
                 endv := (e'.edges.getD (dfltV, dfltV)).2 }

/-- The stitcher's inner `while (!nextNotFound)` loop.  Each successful match
removes exactly one pool entity, so `fuel := pool.length` always suffices.
After a matchless pass the source re-tests `pointsAreEqual(start, end)` on
unchanged endpoints — a test that already failed — so only the post-match
test is modelled. -/
def growShape (P : Type) (ops : RealOps K) :
    ℕ → Shape K P → List (Entity K) → Shape K P × List (Entity K)
  | 0, shape, pool => (shape, pool)
  | fuel + 1, shape, pool =>
    match findMatch shape.start shape.endv pool with
    | none => (shape, pool)
    | some (e, k, rest) =>
      let shape' := attachEntity ops shape e k
      if pointsAreEqual shape'.start shape'.endv then
        ({ shape' with closed := true }, rest)
      else
        growShape P ops fuel shape' rest

/-- The stitcher's outer `while (entities.length)` loop: seed a shape from the
first pool entity (a `CIRCLE` seed is immediately `single` and `closed`), close
trivially when the seed's endpoints already coincide, otherwise grow.  Each
iteration consumes at least the seed, so `fuel := pool.length` suffices. -/
def findShapesLoop (P : Type) (ops : RealOps K) :
    ℕ → List (Entity K) → List (Shape K P)
  | 0, _ => []
  | _ + 1, [] => []
  | fuel + 1, startEntity :: rest =>
    let ed := startEntity.edges.getD (dfltV, dfltV)
    let shape0 : Shape K P :=
      { entities := transofrmEntity ops startEntity,
        start := ed.1, endv := ed.2, perimeter := 0, area := 0,
        closed := decide (startEntity.etype = "CIRCLE"),
        single := decide (startEntity.etype = "CIRCLE") }
    if pointsAreEqual shape0.start shape0.endv then
      { shape0 with closed := true } :: findShapesLoop P ops fuel rest
    else
      let sp := growShape P ops rest.length shape0 rest
      sp.1 :: findShapesLoop P ops fuel sp.2

/-- One tally step of the unknown-entity object:
`unknownEntities[type] = (count || 0) + 1`. -/
def tallyAdd (t : String) : List (String × ℕ) → List (String × ℕ)
  | [] => [(t, 1)]
  | (s, c) :: rest => if s = t then (s, c + 1) :: rest else (s, c) :: tallyAdd t rest

/-- Lookup in the tally object (`0` encodes an absent key, which is falsy). -/
def tallyCount (l : List (String × ℕ)) (t : String) : ℕ :=
  match l.find? (fun p => p.1 = t) with
  | none => 0
  | some p => p.2

/-- `findShapes`: filter the pool to entities with edges (tallying the rest by
type) and stitch until the pool is exhausted. -/
def findShapes (P : Type) (ops : RealOps K) (data : DxfData K) :
    FindShapesResult K P :=
  let pool := data.entities.filter (fun e => e.edges.isSome)
  let unknownEntities := (data.entities.filter (fun e => e.edges.isNone)).foldl
    (fun acc e => tallyAdd e.etype acc) []
  ⟨findShapesLoop P ops pool.length pool, unknownEntities⟩

/-- Faces handed to the kernel's `Polygon` constructor: a `Segment`, an `Arc`
(center, radius, start/end angle, counterClockwise flag), or the full-circle
arc of `Circle#toArc`. -/
inductive Face (K : Type) : Type
  | seg (p q : Vertice K)
  | arc (c : Vertice K) (r sa ea : K) (ccw : Bool)
  | circleArc (c : Vertice K) (r : K)
deriving DecidableEq, Repr

/-- Modelled from the spec: the kernel's `arc.reverse()` — same carrier circle
with start and end angles exchanged and orientation flipped. -/
def reverseFace : Face K → Face K
  | .arc c r sa ea ccw => .arc c r ea sa (!ccw)
  | f => f

/-- The opaque geometry kernel (`@flatten-js/core`), an external collaborator:
polygon construction (which may throw), validity, area (which may throw),
containment, and distance to a probe face. -/
structure Kernel (K : Type) (P : Type) where
  polygonOfFaces : List (Face K) → Except String P
  isValid : P → Bool
  area : P → Except String K
  contains : P → P → Bool
  distanceTo : P → Face K → K

/-- The face built for one entity inside `createPolygon` (`throw new
Error('unknown entity')` for any other type). -/
def faceOfEntity (e : Entity K) : Except String (Face K) :=
  if e.etype = "LINE" then
    let ed := e.edges.getD (dfltV, dfltV)
    .ok (.seg ed.1 ed.2)
  else if e.etype = "ARC" then
    let a : Face K := .arc (e.center.getD dfltV) (e.radius.getD 0)
      (e.startAngle.getD 0) (e.endAngle.getD 0) (!e.clockwise)
    .ok (if e.reverse then reverseFace a else a)
  else if e.etype = "CIRCLE" then
    .ok (.circleArc (e.center.getD dfltV) (e.radius.getD 0))
  else .error "unknown entity"

/-- `createPolygon`: build the kernel polygon from the shape's ordered,
oriented entity sequence. -/
def createPolygon (kern : Kernel K P) (shape : Shape K P) : Except String P := do
  let faces ← shape.entities.mapM faceOfEntity
  kern.polygonOfFaces faces

/-- `const MAIN_INCLUDES_CHECK_TIMEOUT: number = 1 * 1000`. -/
def MAIN_INCLUDES_CHECK_TIMEOUT : K := 1 * 1000

/-- `const MAX_BORDER_DISTANCE: number = 10000`. -/
def MAX_BORDER_DISTANCE : K := 10000

/-- Reading `shape.polygon` where the source would call a method on it:
an absent polygon is a JavaScript `TypeError`. -/
def getPolygon (s : Shape K P) : Except String P :=
  match s.polygon with
  | some p => .ok p
  | none => .error "TypeError: polygon is undefined"

/-- The main-shape selection loop of `findMainShape`: probe shape 0 against
each other shape in both directions; the first hit decides.  `none` models the
`-1` sentinel. -/
def selectMainLoop (contains : P → P → Bool) (s0 : Shape K P) :
    List (Shape K P) → ℕ → Except String (Option ℕ)
  | [], _ => .ok none
  | s :: rest, i => do
    let p0 ← getPolygon s0
    let pi ← getPolygon s
    if contains p0 pi then .ok (some 0)
    else if contains pi p0 then .ok (some i)
    else selectMainLoop contains s0 rest (i + 1)

/-- The containment-verification loop of `findMainShape` over the reordered
array (index 0, the main shape itself, is skipped; `i` is the `forEach`
index).  `elapsed i` is the wall-clock reading `new Date().getTime() -
started` at iteration `i`.  `.ok true` models the caught
`CHECK_TIMEOUT_MESSAGE` throw; the containment failure propagates. -/
def includesLoop (contains : P → P → Bool) (elapsed : ℕ → K)
    (mainShape : Shape K P) : List (Shape K P) → ℕ → Except String Bool
  | [], _ => .ok false
  | s :: rest, i => do
    let pm ← getPolygon mainShape
    let ps ← getPolygon s
    if ¬ contains pm ps then .error "Not all shapes inside main shape"
    else if MAIN_INCLUDES_CHECK_TIMEOUT < elapsed i then .ok true
    else includesLoop contains elapsed mainShape rest (i + 1)

/-- The tail of `findMainShape` once the selection index is fixed: splice the
main shape out (`i` is already the resolved index, the last position when the
selection loop found nothing), unshift it, verify the remaining shapes under
the wall-clock budget, and record a timeout only as `skippedIncludesCheck`. -/
def verifyMain (contains : P → P → Bool) (elapsed : ℕ → K)
    (all : List (Shape K P)) (i : ℕ) :
    Except String (Option (Shape K P) × List (Shape K P)) := do
  let mainShape := all.getD i default
  let others := all.eraseIdx i
  let skipped ← includesLoop contains elapsed mainShape others 1
  let main' := { mainShape with
    skippedIncludesCheck := mainShape.skippedIncludesCheck || skipped }
  .ok (some main', main' :: others)

/-- `findMainShape`.  A single shape is returned at once (no verification).
Otherwise the selection loop runs; `shapes.splice(mainShapeIndex, 1)` with the
`-1` sentinel removes the **last** element (JavaScript negative-index splice),
which is then unshifted to the front.  On an empty list the splice yields
`undefined` (`none`); the caller's property access on it is what fails.  A
timeout during verification only marks `skippedIncludesCheck`. -/
def findMainShape (contains : P → P → Bool) (elapsed : ℕ → K) :
    List (Shape K P) → Except String (Option (Shape K P) × List (Shape K P))
  | [] => .ok (none, [])
  | [s] => .ok (some s, [s])
  | s0 :: s1 :: rest => do
    let idx? ← selectMainLoop contains s0 (s1 :: rest) 1
    verifyMain contains elapsed (s0 :: s1 :: rest)
      (idx?.getD ((s0 :: s1 :: rest).length - 1))

/-- `interface Rect`. -/
structure Rect (K : Type) where
  leftBottom : Vertice K
  rightTop : Vertice K
deriving DecidableEq, Repr

/-- `findBounds`: probe the polygon's distance to four far axis-aligned
segments at offset `MAX_BORDER_DISTANCE` and derive the bounding corners.
`none` models the `null` returned for a shape without a polygon. -/
def findBounds (kern : Kernel K P) (shape : Shape K P) : Option (Rect K) :=
  match shape.polygon with
  | none => none
  | some p =>
    let L : K := MAX_BORDER_DISTANCE
    let topSegment : Face K := .seg { x := -L, y := L } { x := L, y := L }
    let distanceTop := kern.distanceTo p topSegment
    let bottomSegment : Face K := .seg { x := -L, y := -L } { x := L, y := -L }
    let distanceBottom := kern.distanceTo p bottomSegment
    let leftSegment : Face K := .seg { x := -L, y := -L } { x := -L, y := L }
    let distanceLeft := kern.distanceTo p leftSegment
    let rightSegment : Face K := .seg { x := L, y := -L } { x := L, y := L }
    let distanceRight := kern.distanceTo p rightSegment
    some { leftBottom := { x := distanceLeft - L, y := distanceBottom - L }
           rightTop := { x := L - distanceRight, y := L - distanceTop } }

/-- `interface ShapeData`. -/
structure ShapeData (K : Type) where
  area : K
  perimeter : K
deriving DecidableEq, Repr

/-- `interface FileData`. -/
structure FileData (K : Type) where
  area : K
  perimeter : K
  unknownEntities : List (String × ℕ)
  errors : List String
  splineExists : Bool
  shapes : List (ShapeData K)
  width : K
  height : K
deriving DecidableEq, Repr

/-- The perimeter fold of the measurer:
`shape.entities.reduce((acc, val) => acc + calcEntityLength(val), 0)`. -/
def perimeterOfShape (ops : RealOps K) (shape : Shape K P) : Except String K :=
  shape.entities.foldlM (fun acc e => (calcEntityLength ops e).map (acc + ·)) 0

/-- The measurer body run on one shape (`index` is the position in the
pre-filter list, used in the error messages): build the polygon (drop on
failure), warn when invalid, compute area and perimeter (drop on failure). -/
def measureOne (kern : Kernel K P) (ops : RealOps K) (index : ℕ)
    (shape : Shape K P) : List String × Option (Shape K P) :=
  match createPolygon kern shape with
  | .error msg => (["Shape " ++ toString index ++ " has errors " ++ msg], none)
  | .ok p =>
    let warn := if kern.isValid p then []
      else ["Shape " ++ toString index ++ " is invalid"]
    match kern.area p with
    | .error msg =>
      (warn ++ ["Can not compute area of the shape " ++ toString index ++ ". " ++ msg],
       none)
    | .ok a =>
      match perimeterOfShape ops shape with
      | .error msg =>
        (warn ++
          ["Can not compute perimeter of the shape " ++ toString index ++ ". " ++ msg],
         none)
      | .ok per =>
        (warn, some { shape with polygon := some p, area := a, perimeter := per })

/-- The `shapes.filter` pass of `getFileData`: surviving measured shapes and
the error strings pushed along the way, in order. -/
def measureShapes (kern : Kernel K P) (ops : RealOps K)
    (shapes : List (Shape K P)) : List (Shape K P) × List String :=
  shapes.enum.foldl
    (fun acc p =>
      let r := measureOne kern ops p.1 p.2
      (acc.1 ++ r.2.toList, acc.2 ++ r.1))
    ([], [])

/-- `getFileData`.  The input is the outcome of `readDxf`: `none` when the
external parser threw (`readDxf` returns `null`), in which case
`findEdges(null)` raises an uncaught `TypeError` — modelled as the
`Except.error` escaping.  All domain failures end up as strings in `errors`. -/
def getFileData (P : Type) (kern : Kernel K P) (ops : RealOps K)
    (elapsed : ℕ → K) (data? : Option (DxfData K)) : Except String (FileData K) :=
  match data? with
  | none => .error "TypeError: Cannot read properties of null (reading entities)"
  | some dxf =>
    let data := findEdges ops dxf
    let fsr := findShapes P ops data
    let msr := measureShapes kern ops fsr.shapes
    let shapes := msr.1
    let fileData0 : FileData K :=
      { area := 0, perimeter := 0,
        unknownEntities := fsr.unknownEntities,
        errors := msr.2,
        splineExists := decide (tallyCount fsr.unknownEntities "SPLINE" ≠ 0),
        shapes := [], width := 0, height := 0 }
    match findMainShape kern.contains elapsed shapes with
    | .error _ =>
      .ok { fileData0 with errors := fileData0.errors ++ ["Can not define main shape"] }
    | .ok (none, _) =>
      -- `findMainShape` returned `undefined`; `mainShape.area` throws inside
      -- the same `try`, so the same catch fires.
      .ok { fileData0 with errors := fileData0.errors ++ ["Can not define main shape"] }
    | .ok (some mainShape, shapes2) =>
      let errors2 := fileData0.errors ++
        (if mainShape.skippedIncludesCheck
          then ["Skipped \"all shapes in main shape\" check"] else [])
      let perimeter := shapes2.foldl (fun acc s => acc + s.perimeter) 0
      let shapeDatas := shapes2.map
        (fun s => ({ area := s.area, perimeter := s.perimeter } : ShapeData K))
      match findBounds kern mainShape with
      | none => .error "TypeError: Cannot read properties of null (reading rightTop)"
      | some bounds =>
        .ok { fileData0 with
          area := mainShape.area,
          errors := errors2,
          perimeter := perimeter,
          shapes := shapeDatas,
          width := bounds.rightTop.x - bounds.leftBottom.x,
          height := bounds.rightTop.y - bounds.leftBottom.y }

/-! ## Spec-side definitions (for refinement-style comparisons) -/

/-- Written from the spec's wording of the arc-length rule: normalize
`endAngle - startAngle` into `[0, 2π)` by adding `2π` when negative, replace
by `2π - angle` when clockwise, multiply by the radius. -/
def specArcLength (ops : RealOps K) (startAngle endAngle : K) (clockwise : Bool)
    (radius : K) : K :=
  let a0 := endAngle - startAngle
  let a1 := if a0 < 0 then 2 * ops.pi + a0 else a0
  (if clockwise then 2 * ops.pi - a1 else a1) * radius

/-- The far horizontal probe above the drawing, from the spec's description of
the bounding-box estimator. -/
def probeTop : Face K :=
  .seg { x := -MAX_BORDER_DISTANCE, y := MAX_BORDER_DISTANCE }
    { x := MAX_BORDER_DISTANCE, y := MAX_BORDER_DISTANCE }

/-- The far horizontal probe below the drawing. -/
def probeBottom : Face K :=
  .seg { x := -MAX_BORDER_DISTANCE, y := -MAX_BORDER_DISTANCE }
    { x := MAX_BORDER_DISTANCE, y := -MAX_BORDER_DISTANCE }

/-- The far vertical probe left of the drawing. -/
def probeLeft : Face K :=
  .seg { x := -MAX_BORDER_DISTANCE, y := -MAX_BORDER_DISTANCE }
    { x := -MAX_BORDER_DISTANCE, y := MAX_BORDER_DISTANCE }

/-- The far vertical probe right of the drawing. -/
def probeRight : Face K :=
  .seg { x := MAX_BORDER_DISTANCE, y := -MAX_BORDER_DISTANCE }
    { x := MAX_BORDER_DISTANCE, y := MAX_BORDER_DISTANCE }

/-- Written from the spec's bounding-coordinate formulas: `left =
distanceLeft − L`, `bottom = distanceBottom − L`, `right = L − distanceRight`,
`top = L − distanceTop`. -/
def specBoundsRect (distanceLeft distanceBottom distanceRight distanceTop : K) :
    Rect K :=
  { leftBottom := { x := distanceLeft - MAX_BORDER_DISTANCE,
                    y := distanceBottom - MAX_BORDER_DISTANCE }
    rightTop := { x := MAX_BORDER_DISTANCE - distanceRight,
                  y := MAX_BORDER_DISTANCE - distanceTop } }

/-- The containment probe between two shapes as the source performs it
(`a.polygon.contains(b.polygon)`); `false` also covers absent polygons, which
in the source would throw before the probe is consulted. -/
def optContains (contains : P → P → Bool) (a b : Shape K P) : Bool :=
  match a.polygon, b.polygon with
  | some p, some q => contains p q
  | _, _ => false

/-- Whether a `findMainShape` outcome returned a main shape whose
nesting check was cut short by the wall-clock budget. -/
def mainFlagged : Except String (Option (Shape K P) × List (Shape K P)) → Bool
  | .ok (some m, _) => m.skippedIncludesCheck
  | _ => false

/-- Entities whose optional data is populated the way the external DXF parser
populates it: polylines have vertices, lines have their two endpoints, and no
parsed entity arrives with `edges` pre-assigned (only `findEdges` assigns
them).  On data outside this set the original JavaScript can fault on
`undefined` reads that this embedding totalizes with default values. -/
def wellFormedEntity (e : Entity K) : Prop :=
  (e.etype = "LWPOLYLINE" → e.vertices ≠ []) ∧
  (e.etype = "LINE" → 2 ≤ e.vertices.length) ∧
  e.edges = none

/-- A parsed file all of whose entities are well-formed. -/
def wellFormedData (d : DxfData K) : Prop :=
  ∀ e ∈ d.entities, wellFormedEntity e

instance (e : Entity K) : Decidable (wellFormedEntity e) := by
  unfold wellFormedEntity; infer_instance

instance (d : DxfData K) : Decidable (wellFormedData d) := by
  unfold wellFormedData; exact List.decidableBAll _ _

/-! ## Concrete instantiations used by the executable scenarios -/

/-- Entity builders for concrete inputs (the shape the external parser
produces). -/
def lineEntity (p q : Vertice K) : Entity K :=
  { etype := "LINE", vertices := [p, q] }

/-- A raw `ARC` entity as parsed. -/
def arcEntity (c : Vertice K) (r sa ea : K) (cw : Bool) : Entity K :=
  { etype := "ARC", center := some c, radius := some r,
    startAngle := some sa, endAngle := some ea, clockwise := cw }

/-- A raw `CIRCLE` entity as parsed. -/
def circleEntity (c : Vertice K) (r : K) : Entity K :=
  { etype := "CIRCLE", center := some c, radius := some r }

/-- A raw `LWPOLYLINE` entity as parsed (`closed` is the `shape` marker). -/
def polyEntity (vs : List (Vertice K)) (closed : Bool) : Entity K :=
  { etype := "LWPOLYLINE", vertices := vs, shape := closed }

/-- Rational stand-in for the analytic operations, agreeing with the real
functions on every input the rational scenarios below feed them (they only
take square roots of `0` and `1`, and never touch an arc). -/
def qOps : RealOps ℚ :=
  { pi := 0, sqrt := fun q => if q = 1 then 1 else 0,
    cos := fun _ => 0, sin := fun _ => 0, acos := fun _ => 0, atan := fun _ => 0 }

/-- The genuine real-analytic operations. -/
noncomputable def rOps : RealOps ℝ :=
  { pi := Real.pi, sqrt := Real.sqrt, cos := Real.cos, sin := Real.sin,
    acos := Real.arccos, atan := Real.arctan }

/-- Modelled from the spec: the signed shoelace contribution of one polygon
face (the concrete scenarios only build polygons of straight segments). -/
def faceCross : Face ℚ → ℚ
  | .seg p q => p.x * q.y - q.x * p.y
  | _ => 0

/-- Modelled from the spec: a concrete geometry kernel over `ℚ` whose polygons
are their face lists, with shoelace area, no containments, and zero probe
distances. -/
def qKernel : Kernel ℚ (List (Face ℚ)) :=
  { polygonOfFaces := .ok, isValid := fun _ => true,
    area := fun fs => .ok (|(fs.map faceCross).sum| / 2),
    contains := fun _ _ => false, distanceTo := fun _ _ => 0 }

/-- Modelled from the spec: like `qKernel` but every containment probe holds
and probes sit at distance `3` (a drawing nested inside the main shape). -/
def qKernelNest : Kernel ℚ (List (Face ℚ)) :=
  { polygonOfFaces := .ok, isValid := fun _ => true,
    area := fun fs => .ok (|(fs.map faceCross).sum| / 2),
    contains := fun _ _ => true, distanceTo := fun _ _ => 3 }

/-- Shorthand for rational vertices. -/
def qV (a b : ℚ) : Vertice ℚ := { x := a, y := b }

/-- One edge of the unit square, optionally direction-flipped. -/
def dirLine (d : Bool) (p q : Vertice ℚ) : Entity ℚ :=
  if d then lineEntity q p else lineEntity p q

/-- The four `LINE` primitives of the unit square, each with its own endpoint
direction choice. -/
def unitSquareLines (d : Bool × Bool × Bool × Bool) : List (Entity ℚ) :=
  [dirLine d.1 (qV 0 0) (qV 1 0), dirLine d.2.1 (qV 1 0) (qV 1 1),
   dirLine d.2.2.1 (qV 1 1) (qV 0 1), dirLine d.2.2.2 (qV 0 1) (qV 0 0)]

/-- An axis-aligned unit square with lower-left corner `(a, b)`. -/
def unitSquareAt (a b : ℚ) : List (Entity ℚ) :=
  [lineEntity (qV a b) (qV (a+1) b), lineEntity (qV (a+1) b) (qV (a+1) (b+1)),
   lineEntity (qV (a+1) (b+1)) (qV a (b+1)), lineEntity (qV a (b+1)) (qV a b)]

/-- Normalize and stitch a concrete rational entity list. -/
def squareRun (l : List (Entity ℚ)) : FindShapesResult ℚ (List (Face ℚ)) :=
  findShapes (List (Face ℚ)) qOps (findEdges qOps ⟨l⟩)

/-- Measure the stitched shapes of a concrete rational entity list against
`qKernel`. -/
def squareMeasured (l : List (Entity ℚ)) : List (Shape ℚ (List (Face ℚ))) :=
  (measureShapes qKernel qOps (squareRun l).shapes).1

/-- A bare closed shape carrying an empty-face-list polygon handle. -/
def emptyPolyShape : Shape ℚ (List (Face ℚ)) :=
  { entities := [], start := qV 0 0, endv := qV 0 0, perimeter := 0, area := 0,
    closed := true, single := false, polygon := some [] }

/-- The measured main shape of the unit square at the origin (under
`qKernel`). -/
def squareMainShape : Shape ℚ (List (Face ℚ)) :=
  (measureShapes qKernel qOps (squareRun (unitSquareAt 0 0)).shapes).1.getD 0 default

/-- Its polygon handle. -/
def squareMainPolygon : List (Face ℚ) := squareMainShape.polygon.getD []

/-- The full `getFileData` result on the unit square at the origin. -/
def squareFileData : FileData ℚ :=
  match getFileData (List (Face ℚ)) qKernel qOps (fun _ => 0)
      (some ⟨unitSquareAt 0 0⟩) with
  | .ok fd => fd
  | .error _ =>
    { area := 0, perimeter := 0, unknownEntities := [], errors := [],
      splineExists := false, shapes := [], width := 0, height := 0 }

/-- Whether a modelled run returned a value (no uncaught exception). -/
def runOk {α : Type} : Except String α → Bool
  | .ok _ => true
  | .error _ => false

/-- Two disjoint unit squares, used with the all-containments kernel to drive
the nesting-check timeout scenario. -/
def nestInput : DxfData ℚ := ⟨unitSquareAt 0 0 ++ unitSquareAt 10 0⟩

/-- Its measured shapes under `qKernelNest`. -/
def nestMeasured : List (Shape ℚ (List (Face ℚ))) :=
  (measureShapes qKernelNest qOps
    (findShapes (List (Face ℚ)) qOps (findEdges qOps nestInput)).shapes).1

/-- The main shape selected for it under a clock that is already over budget. -/
def nestMain : Shape ℚ (List (Face ℚ)) :=
  match findMainShape qKernelNest.contains (fun _ => 2000) nestMeasured with
  | .ok (some m, _) => m
  | _ => default

/-- The reordered shape list of the same run. -/
def nestList : List (Shape ℚ (List (Face ℚ))) :=
  match findMainShape qKernelNest.contains (fun _ => 2000) nestMeasured with
  | .ok (_, l) => l
  | _ => []

/-- The main shape's polygon handle in that run. -/
def nestPoly : List (Face ℚ) := nestMain.polygon.getD []

/-- A concrete closed polyline (triangle) for the seeding scenario. -/
def cpoly : Entity ℚ := polyEntity [qV 0 0, qV 2 0, qV 1 2] true

/-- A concrete leftover pool accompanying it. -/
def cpolyRest : List (Entity ℚ) := [lineEntity (qV 5 5) (qV 6 5)]

/-! ## Theorems -/

-- Batteries marks rational arithmetic `@[irreducible]`; re-enable unfolding
-- inside this file so concrete rational runs can be settled by `decide`.
attribute [local semireducible] Rat.add Rat.sub Rat.mul Rat.inv

/-- C5: `calcEntityLength` computes the spec's arc-length formula
(`angle·radius` with the angle normalized into `[0,2π)` and complemented when
clockwise); on the spec's three concrete arcs it yields `π·r`, `π·r` and
`(2π − π/2)·r`; a normalized line contributes its Euclidean length and a
circle contributes `2π·radius`. -/
theorem calcEntityLength_matches_spec :
    (∀ (c : Vertice ℝ) (r sa ea : ℝ) (cw : Bool),
        calcEntityLength rOps (arcEntity c r sa ea cw) =
          .ok (specArcLength rOps sa ea cw r)) ∧
    (∀ (c : Vertice ℝ) (r : ℝ),
        calcEntityLength rOps (arcEntity c r 0 Real.pi false) = .ok (Real.pi * r)) ∧
    (∀ (c : Vertice ℝ) (r : ℝ),
        calcEntityLength rOps (arcEntity c r 0 Real.pi true) = .ok (Real.pi * r)) ∧
    (∀ (c : Vertice ℝ) (r : ℝ),
        calcEntityLength rOps (arcEntity c r 0 (Real.pi / 2) true) =
          .ok ((2 * Real.pi - Real.pi / 2) * r)) ∧
    (∀ (p q : Vertice ℝ),
        calcEntityLength rOps (findEdgesEntity rOps (lineEntity p q)) =
          .ok (Real.sqrt ((p.x - q.x) ^ 2 + (p.y - q.y) ^ 2))) ∧
    (∀ (c : Vertice ℝ) (r : ℝ),
        calcEntityLength rOps (circleEntity c r) = .ok (2 * Real.pi * r)) := by
  refine ⟨?_, ?_, ?_, ?_, ?_, ?_⟩
  · intro c r sa ea cw
    simp [calcEntityLength, arcEntity, specArcLength]
  · intro c r
    simp [calcEntityLength, arcEntity, rOps, Real.pi_nonneg.not_lt]
  · intro c r
    have h : ¬ (Real.pi < 0) := not_lt.mpr Real.pi_nonneg
    simp [calcEntityLength, arcEntity, rOps, h]
    left
    ring
  · intro c r
    have h : ¬ (Real.pi / 2 < 0) := not_lt.mpr (by positivity)
    simp [calcEntityLength, arcEntity, rOps, h]
  · intro p q
    simp [calcEntityLength, findEdgesEntity, lineEntity, lineLength, rOps, dfltV]
  · intro c r
    simp [calcEntityLength, circleEntity, rOps]

/-- C8: for a main shape with a polygon, `findBounds` returns exactly the
spec's bounding rectangle built from the four kernel distances to the far
probe segments, and on the successful path `getFileData` reports
`width = right − left` and `height = top − bottom` for that rectangle. -/
theorem findBounds_matches_spec {P : Type} (kern : Kernel K P) :
    (∀ (shape : Shape K P) (p : P), shape.polygon = some p →
        findBounds kern shape = some (specBoundsRect
          (kern.distanceTo p probeLeft) (kern.distanceTo p probeBottom)
          (kern.distanceTo p probeRight) (kern.distanceTo p probeTop))) ∧
    (∀ (ops : RealOps K) (elapsed : ℕ → K) (dxf : DxfData K) (fd : FileData K)
        (m : Shape K P) (l : List (Shape K P)) (p : P),
        findMainShape kern.contains elapsed
            (measureShapes kern ops (findShapes P ops (findEdges ops dxf)).shapes).1 =
          .ok (some m, l) →
        m.polygon = some p →
        getFileData P kern ops elapsed (some dxf) = .ok fd →
        fd.width = (MAX_BORDER_DISTANCE - kern.distanceTo p probeRight) -
            (kern.distanceTo p probeLeft - MAX_BORDER_DISTANCE) ∧
        fd.height = (MAX_BORDER_DISTANCE - kern.distanceTo p probeTop) -
            (kern.distanceTo p probeBottom - MAX_BORDER_DISTANCE)) := by
  have part1 : ∀ (shape : Shape K P) (p : P), shape.polygon = some p →
      findBounds kern shape = some (specBoundsRect
        (kern.distanceTo p probeLeft) (kern.distanceTo p probeBottom)
        (kern.distanceTo p probeRight) (kern.distanceTo p probeTop)) := by
    intro shape p hp
    simp [findBounds, hp, specBoundsRect, probeLeft, probeBottom, probeRight, probeTop]
  refine ⟨part1, ?_⟩
  intro ops elapsed dxf fd m l p hfms hp hok
  simp only [getFileData] at hok
  rw [hfms] at hok
  simp only [part1 m p hp] at hok
  rw [Except.ok.injEq] at hok
  subst hok
  simp [specBoundsRect]

/-- Witness for C8 at a concrete polygon-carrying shape and at the concrete
unit-square pipeline. -/
theorem findBounds_matches_spec_witness :
    (findBounds qKernel emptyPolyShape = some (specBoundsRect
      (qKernel.distanceTo [] probeLeft) (qKernel.distanceTo [] probeBottom)
      (qKernel.distanceTo [] probeRight) (qKernel.distanceTo [] probeTop))) ∧
    (squareFileData.width =
        (MAX_BORDER_DISTANCE - qKernel.distanceTo squareMainPolygon probeRight) -
          (qKernel.distanceTo squareMainPolygon probeLeft - MAX_BORDER_DISTANCE) ∧
      squareFileData.height =
        (MAX_BORDER_DISTANCE - qKernel.distanceTo squareMainPolygon probeTop) -
          (qKernel.distanceTo squareMainPolygon probeBottom - MAX_BORDER_DISTANCE)) :=
  ⟨(findBounds_matches_spec qKernel).1 emptyPolyShape [] rfl,
   (findBounds_matches_spec qKernel).2 qOps (fun _ => 0) ⟨unitSquareAt 0 0⟩
     squareFileData squareMainShape [squareMainShape] squareMainPolygon
     (by rfl) (by rfl) (by rfl)⟩

/-- C10: when no shape survives measurement, `getFileData` does not throw: it
returns the record whose errors end with the `Can not define main shape`
failure and whose area, perimeter, width and height are all zero. -/
theorem noSurvivor_cannotDefineMainShape {P : Type} (kern : Kernel K P)
    (ops : RealOps K) (elapsed : ℕ → K) (dxf : DxfData K) (errs : List String)
    (hms : measureShapes kern ops (findShapes P ops (findEdges ops dxf)).shapes =
      ([], errs)) :
    getFileData P kern ops elapsed (some dxf) = .ok
      { area := 0, perimeter := 0,
        unknownEntities := (findShapes P ops (findEdges ops dxf)).unknownEntities,
        errors := errs ++ ["Can not define main shape"],
        splineExists := decide
          (tallyCount (findShapes P ops (findEdges ops dxf)).unknownEntities "SPLINE" ≠ 0),
        shapes := [], width := 0, height := 0 } := by
  simp only [getFileData, hms]
  rfl

/-- Witness for C10 on the empty drawing. -/
theorem noSurvivor_cannotDefineMainShape_witness :
    measureShapes qKernel qOps
        (findShapes (List (Face ℚ)) qOps (findEdges qOps ⟨[]⟩)).shapes = ([], []) ∧
    getFileData (List (Face ℚ)) qKernel qOps (fun _ => 0) (some ⟨[]⟩) = .ok
      { area := 0, perimeter := 0,
        unknownEntities := (findShapes (List (Face ℚ)) qOps (findEdges qOps ⟨[]⟩)).unknownEntities,
        errors := [] ++ ["Can not define main shape"],
        splineExists := decide
          (tallyCount (findShapes (List (Face ℚ)) qOps (findEdges qOps ⟨[]⟩)).unknownEntities "SPLINE" ≠ 0),
        shapes := [], width := 0, height := 0 } :=
  ⟨by rfl, noSurvivor_cannotDefineMainShape qKernel qOps (fun _ => 0) ⟨[]⟩ [] (by rfl)⟩

theorem measureOne_polygon_isSome {P : Type} (kern : Kernel K P) (ops : RealOps K)
    (i : ℕ) (shape s : Shape K P) (h : (measureOne kern ops i shape).2 = some s) :
    s.polygon.isSome = true := by
  unfold measureOne at h
  repeat' split at h
  all_goals simp_all
  all_goals rw [← h]
  all_goals rfl

theorem measureFold_polygon_isSome {P : Type} (kern : Kernel K P) (ops : RealOps K)
    (l : List (ℕ × Shape K P)) :
    ∀ (init : List (Shape K P) × List String),
      (∀ s ∈ init.1, s.polygon.isSome = true) →
      ∀ s ∈ (l.foldl
        (fun acc p =>
          let r := measureOne kern ops p.1 p.2
          (acc.1 ++ r.2.toList, acc.2 ++ r.1)) init).1,
        s.polygon.isSome = true := by
  induction l with
  | nil => intro init hinit s hs; exact hinit s hs
  | cons hd tl ih =>
    intro init hinit s hs
    refine ih _ ?_ s hs
    intro t ht
    rcases List.mem_append.1 ht with h | h
    · exact hinit t h
    · rcases hr : (measureOne kern ops hd.1 hd.2).2 with _ | u <;> rw [hr] at h
      · simp at h
      · simp only [Option.toList_some, List.mem_singleton] at h
        subst h
        exact measureOne_polygon_isSome kern ops hd.1 hd.2 t hr

theorem measureShapes_polygon_isSome {P : Type} (kern : Kernel K P) (ops : RealOps K)
    (shapes : List (Shape K P)) :
    ∀ s ∈ (measureShapes kern ops shapes).1, s.polygon.isSome = true := by
  intro s hs
  exact measureFold_polygon_isSome kern ops shapes.enum ([], []) (by simp) s hs

theorem selectMainLoop_ok_bound {P : Type} (contains : P → P → Bool)
    (s0 : Shape K P) (l : List (Shape K P)) :
    ∀ (i0 j : ℕ), selectMainLoop contains s0 l i0 = .ok (some j) →
      j = 0 ∨ j < i0 + l.length := by
  induction l with
  | nil => intro i0 j h; simp [selectMainLoop] at h
  | cons hd tl ih =>
    intro i0 j h
    unfold selectMainLoop at h
    rcases h0 : getPolygon s0 with e | p0 <;> rw [h0] at h
    · exact Except.noConfusion h
    rcases h1 : getPolygon hd with e | p1 <;> rw [h1] at h
    · exact Except.noConfusion h
    have h' : (if contains p0 p1 then Except.ok (some 0)
        else if contains p1 p0 then Except.ok (some i0)
        else selectMainLoop contains s0 tl (i0 + 1) : Except String (Option ℕ)) =
        .ok (some j) := h
    by_cases hc : contains p0 p1
    · rw [if_pos hc] at h'
      simp only [Except.ok.injEq, Option.some.injEq] at h'
      left; exact h'.symm
    · rw [if_neg hc] at h'
      by_cases hc2 : contains p1 p0
      · rw [if_pos hc2] at h'
        simp only [Except.ok.injEq, Option.some.injEq] at h'
        right; subst h'; simp only [List.length_cons]; omega
      · rw [if_neg hc2] at h'
        rcases ih (i0 + 1) j h' with hj | hj
        · left; exact hj
        · right; simp only [List.length_cons]; omega

theorem verifyMain_ok_polygon {P : Type} (contains : P → P → Bool)
    (elapsed : ℕ → K) (all : List (Shape K P)) (i : ℕ) (m : Shape K P)
    (l : List (Shape K P)) (h : verifyMain contains elapsed all i = .ok (some m, l)) :
    m.polygon = (all.getD i default).polygon := by
  simp only [verifyMain] at h
  rcases hinc : includesLoop contains elapsed (all.getD i default) (all.eraseIdx i) 1
    with e | sk <;> rw [hinc] at h
  · exact Except.noConfusion h
  · have h' : (Except.ok
        (some { all.getD i default with
          skippedIncludesCheck := (all.getD i default).skippedIncludesCheck || sk },
         { all.getD i default with
           skippedIncludesCheck := (all.getD i default).skippedIncludesCheck || sk } ::
           all.eraseIdx i) :
        Except String (Option (Shape K P) × List (Shape K P))) = .ok (some m, l) := h
    simp only [Except.ok.injEq, Prod.mk.injEq, Option.some.injEq] at h'
    rw [← h'.1]

theorem findMainShape_ok_polygon {P : Type} (contains : P → P → Bool)
    (elapsed : ℕ → K) (ms : List (Shape K P)) (m : Shape K P)
    (l : List (Shape K P))
    (h : findMainShape contains elapsed ms = .ok (some m, l))
    (hpoly : ∀ s ∈ ms, s.polygon.isSome = true) :
    m.polygon.isSome = true := by
  match ms with
  | [] => simp [findMainShape] at h
  | [s] =>
    simp only [findMainShape, Except.ok.injEq, Prod.mk.injEq, Option.some.injEq] at h
    rw [← h.1]
    exact hpoly s (by simp)
  | s0 :: s1 :: rest =>
    simp only [findMainShape] at h
    rcases hsel : selectMainLoop contains s0 (s1 :: rest) 1 with e | idx? <;>
      rw [hsel] at h
    · exact Except.noConfusion h
    have hv : verifyMain contains elapsed (s0 :: s1 :: rest)
        (idx?.getD ((s0 :: s1 :: rest).length - 1)) = .ok (some m, l) := h
    have hidx : idx?.getD ((s0 :: s1 :: rest).length - 1) < (s0 :: s1 :: rest).length := by
      rcases idx? with _ | j
      · simp
      · simp only [Option.getD_some]
        rcases selectMainLoop_ok_bound contains s0 (s1 :: rest) 1 j hsel with h0 | hb
        · subst h0; simp
        · simp only [List.length_cons] at hb ⊢; omega
    have hmem : (s0 :: s1 :: rest).getD
        (idx?.getD ((s0 :: s1 :: rest).length - 1)) default ∈ s0 :: s1 :: rest := by
      rw [List.getD_eq_getElem _ _ hidx]
      exact List.getElem_mem hidx
    rw [verifyMain_ok_polygon contains elapsed _ _ m l hv]
    exact hpoly _ hmem

/-- C2 (counterexample): on unparsable input the external parser yields
`null`, and `findEdges(null)` raises an uncaught `TypeError`, so `getFileData`
does let an exception escape. -/
theorem getFileData_throws_on_unparsed :
    runOk (getFileData (List (Face ℚ)) qKernel qOps (fun _ => 0) none) = false := rfl

/-- C2 (amended): for every successfully parsed input (well-formed, as the
external parser produces it), `getFileData` returns a fully-populated
`FileData` value and never lets an exception escape. -/
theorem getFileData_total {P : Type} (kern : Kernel K P) (ops : RealOps K)
    (elapsed : ℕ → K) (dxf : DxfData K) (hwf : wellFormedData dxf) :
    runOk (getFileData P kern ops elapsed (some dxf)) = true := by
  simp only [getFileData]
  rcases hf : findMainShape kern.contains elapsed
      (measureShapes kern ops (findShapes P ops (findEdges ops dxf)).shapes).1
    with e | r
  · rfl
  rcases r with ⟨_ | m, l⟩
  · rfl
  have hpoly : m.polygon.isSome = true :=
    findMainShape_ok_polygon kern.contains elapsed _ m l hf
      (measureShapes_polygon_isSome kern ops _)
  rcases hp : m.polygon with _ | p
  · rw [hp] at hpoly; simp at hpoly
  simp only [findBounds, hp]
  rfl

/-- Witness for C2's amended theorem on the unit square. -/
theorem getFileData_total_witness :
    wellFormedData (⟨unitSquareAt 0 0⟩ : DxfData ℚ) ∧
    runOk (getFileData (List (Face ℚ)) qKernel qOps (fun _ => 0)
      (some ⟨unitSquareAt 0 0⟩)) = true :=
  ⟨by decide, getFileData_total qKernel qOps (fun _ => 0) ⟨unitSquareAt 0 0⟩ (by decide)⟩

theorem selectMainLoop_cons {P : Type} (contains : P → P → Bool)
    (s0 hd : Shape K P) (tl : List (Shape K P)) (i0 : ℕ) :
    selectMainLoop contains s0 (hd :: tl) i0 =
      match s0.polygon, hd.polygon with
      | some p0, some p1 =>
        if contains p0 p1 then .ok (some 0)
        else if contains p1 p0 then .ok (some i0)
        else selectMainLoop contains s0 tl (i0 + 1)
      | _, _ => .error "TypeError: polygon is undefined" := by
  rcases hp0 : s0.polygon with _ | p0 <;> rcases hp1 : hd.polygon with _ | p1 <;>
    simp only [selectMainLoop, getPolygon, hp0, hp1] <;> rfl

theorem includesLoop_cons {P : Type} (contains : P → P → Bool) (elapsed : ℕ → K)
    (main s : Shape K P) (rest : List (Shape K P)) (i : ℕ) :
    includesLoop contains elapsed main (s :: rest) i =
      match main.polygon, s.polygon with
      | some pm, some ps =>
        if ¬ contains pm ps then .error "Not all shapes inside main shape"
        else if MAIN_INCLUDES_CHECK_TIMEOUT < elapsed i then .ok true
        else includesLoop contains elapsed main rest (i + 1)
      | _, _ => .error "TypeError: polygon is undefined" := by
  rcases hpm : main.polygon with _ | pm <;> rcases hps : s.polygon with _ | ps <;>
    simp only [includesLoop, getPolygon, hpm, hps] <;> rfl

theorem verifyMain_eq {P : Type} (contains : P → P → Bool) (elapsed : ℕ → K)
    (all : List (Shape K P)) (i : ℕ) :
    verifyMain contains elapsed all i =
      match includesLoop contains elapsed (all.getD i default) (all.eraseIdx i) 1 with
      | .error e => .error e
      | .ok skipped =>
        .ok (some { all.getD i default with
            skippedIncludesCheck := (all.getD i default).skippedIncludesCheck || skipped },
          { all.getD i default with
            skippedIncludesCheck :=
              (all.getD i default).skippedIncludesCheck || skipped } ::
            all.eraseIdx i) := by
  rcases h : includesLoop contains elapsed (all.getD i default) (all.eraseIdx i) 1
    with e | sk <;> simp only [verifyMain] <;> rw [h] <;> rfl

theorem findMainShape_cons₂ {P : Type} (contains : P → P → Bool) (elapsed : ℕ → K)
    (s0 s1 : Shape K P) (rest : List (Shape K P)) :
    findMainShape contains elapsed (s0 :: s1 :: rest) =
      match selectMainLoop contains s0 (s1 :: rest) 1 with
      | .error e => .error e
      | .ok idx? => verifyMain contains elapsed (s0 :: s1 :: rest)
          (idx?.getD ((s0 :: s1 :: rest).length - 1)) := by
  rcases h : selectMainLoop contains s0 (s1 :: rest) 1 with e | idx? <;>
    simp only [findMainShape] <;> rw [h] <;> rfl

theorem selectMainLoop_no_contain {P : Type} (contains : P → P → Bool)
    (s0 : Shape K P) (l : List (Shape K P)) :
    ∀ i0 : ℕ,
      (∀ s ∈ l, optContains contains s0 s = false ∧
        optContains contains s s0 = false) →
      (∃ e, selectMainLoop contains s0 l i0 = .error e) ∨
        selectMainLoop contains s0 l i0 = .ok none := by
  induction l with
  | nil => intro i0 _; right; rfl
  | cons hd tl ih =>
    intro i0 hl
    rcases hp0 : s0.polygon with _ | p0
    · left
      exact ⟨"TypeError: polygon is undefined", by rw [selectMainLoop_cons, hp0]⟩
    rcases hp1 : hd.polygon with _ | p1
    · left
      exact ⟨"TypeError: polygon is undefined", by rw [selectMainLoop_cons, hp0, hp1]⟩
    have hhd := hl hd (by simp)
    have hc1 : contains p0 p1 = false := by
      have h2 := hhd.1
      unfold optContains at h2
      rw [hp0, hp1] at h2
      exact h2
    have hc2 : contains p1 p0 = false := by
      have h2 := hhd.2
      unfold optContains at h2
      rw [hp0, hp1] at h2
      exact h2
    have hstep : selectMainLoop contains s0 (hd :: tl) i0 =
        selectMainLoop contains s0 tl (i0 + 1) := by
      rw [selectMainLoop_cons, hp0, hp1]
      simp [hc1, hc2]
    rw [hstep]
    exact ih (i0 + 1) (fun s hs => hl s (by simp [hs]))

theorem includesLoop_first_false {P : Type} (contains : P → P → Bool)
    (elapsed : ℕ → K) (main s : Shape K P) (rest : List (Shape K P)) (i : ℕ)
    (h : optContains contains main s = false) :
    ∃ e, includesLoop contains elapsed main (s :: rest) i = .error e := by
  rcases hpm : main.polygon with _ | pm
  · exact ⟨"TypeError: polygon is undefined", by rw [includesLoop_cons, hpm]⟩
  rcases hps : s.polygon with _ | ps
  · exact ⟨"TypeError: polygon is undefined", by rw [includesLoop_cons, hpm, hps]⟩
  have hc : contains pm ps = false := by
    unfold optContains at h
    rw [hpm, hps] at h
    exact h
  refine ⟨"Not all shapes inside main shape", ?_⟩
  rw [includesLoop_cons, hpm, hps]
  simp [hc]

/-- C1: when at least two shapes survive measurement and the containment
probes between shape 0 and every other shape fail in both directions, the run
fails at file level: `getFileData` returns the record whose errors end with
the `Can not define main shape` failure and whose area, width and height (and
perimeter) are all zero. -/
theorem noContainment_cannotDefineMainShape {P : Type} (kern : Kernel K P)
    (ops : RealOps K) (elapsed : ℕ → K) (dxf : DxfData K)
    (ms : List (Shape K P)) (errs : List String)
    (hms : measureShapes kern ops (findShapes P ops (findEdges ops dxf)).shapes =
      (ms, errs))
    (hlen : 2 ≤ ms.length)
    (hnc : ∀ s ∈ ms.tail,
      optContains kern.contains (ms.getD 0 default) s = false ∧
      optContains kern.contains s (ms.getD 0 default) = false) :
    getFileData P kern ops elapsed (some dxf) = .ok
      { area := 0, perimeter := 0,
        unknownEntities := (findShapes P ops (findEdges ops dxf)).unknownEntities,
        errors := errs ++ ["Can not define main shape"],
        splineExists := decide
          (tallyCount (findShapes P ops (findEdges ops dxf)).unknownEntities "SPLINE" ≠ 0),
        shapes := [], width := 0, height := 0 } := by
  match ms, hlen with
  | s0 :: s1 :: rest, _ =>
  have hs0 : (s0 :: s1 :: rest).getD 0 default = s0 := rfl
  rw [hs0] at hnc
  have hfm : ∃ e, findMainShape kern.contains elapsed (s0 :: s1 :: rest) = .error e := by
    rcases selectMainLoop_no_contain kern.contains s0 (s1 :: rest) 1
        (fun s hs => hnc s hs) with ⟨e, he⟩ | hnone
    · exact ⟨e, by simp only [findMainShape]; rw [he]; rfl⟩
    · -- selection found nothing: the `-1` splice takes the last shape as main
      have hmain : ∃ e, verifyMain kern.contains elapsed (s0 :: s1 :: rest)
          ((s0 :: s1 :: rest).length - 1) = .error e := by
        set n := (s0 :: s1 :: rest).length - 1 with hn
        have hn1 : 1 ≤ n := by simp [hn]
        have hothers : (s0 :: s1 :: rest).eraseIdx n =
            s0 :: (s1 :: rest).eraseIdx (n - 1) := by
          rcases n with _ | k
          · omega
          · rfl
        have hmaint : (s0 :: s1 :: rest).getD n default ∈ s1 :: rest := by
          have hlt : n < (s0 :: s1 :: rest).length := by simp [hn]
          rcases n with _ | k
          · omega
          · have hlt' : k < (s1 :: rest).length := by
              simp only [List.length_cons] at hlt ⊢; omega
            have : (s0 :: s1 :: rest).getD (k + 1) default =
                (s1 :: rest).getD k default := rfl
            rw [this, List.getD_eq_getElem _ _ hlt']
            exact List.getElem_mem hlt'
        have hfalse : optContains kern.contains
            ((s0 :: s1 :: rest).getD n default) s0 = false :=
          (hnc _ hmaint).2
        rcases includesLoop_first_false kern.contains elapsed
            ((s0 :: s1 :: rest).getD n default) s0 ((s1 :: rest).eraseIdx (n - 1)) 1
            hfalse with ⟨e, he⟩
        refine ⟨e, ?_⟩
        simp only [verifyMain]
        rw [hothers, he]
        rfl
      rcases hmain with ⟨e, he⟩
      exact ⟨e, by simp only [findMainShape]; rw [hnone]; exact he⟩
  rcases hfm with ⟨e, he⟩
  simp only [getFileData, hms]
  rw [he]

/-- Witness for C1: two disjoint unit squares under a kernel that affirms no
containment. -/
theorem noContainment_cannotDefineMainShape_witness :
    measureShapes qKernel qOps
        (findShapes (List (Face ℚ)) qOps
          (findEdges qOps ⟨unitSquareAt 0 0 ++ unitSquareAt 10 0⟩)).shapes =
      (squareMeasured (unitSquareAt 0 0 ++ unitSquareAt 10 0),
        (measureShapes qKernel qOps
          (squareRun (unitSquareAt 0 0 ++ unitSquareAt 10 0)).shapes).2) ∧
    2 ≤ (squareMeasured (unitSquareAt 0 0 ++ unitSquareAt 10 0)).length ∧
    getFileData (List (Face ℚ)) qKernel qOps (fun _ => 0)
        (some ⟨unitSquareAt 0 0 ++ unitSquareAt 10 0⟩) = .ok
      { area := 0, perimeter := 0,
        unknownEntities := (findShapes (List (Face ℚ)) qOps
          (findEdges qOps ⟨unitSquareAt 0 0 ++ unitSquareAt 10 0⟩)).unknownEntities,
        errors := (measureShapes qKernel qOps
            (squareRun (unitSquareAt 0 0 ++ unitSquareAt 10 0)).shapes).2 ++
          ["Can not define main shape"],
        splineExists := decide
          (tallyCount (findShapes (List (Face ℚ)) qOps
            (findEdges qOps ⟨unitSquareAt 0 0 ++ unitSquareAt 10 0⟩)).unknownEntities
            "SPLINE" ≠ 0),
        shapes := [], width := 0, height := 0 } :=
  ⟨by rfl, by decide,
    noContainment_cannotDefineMainShape qKernel qOps (fun _ => 0)
      ⟨unitSquareAt 0 0 ++ unitSquareAt 10 0⟩
      (squareMeasured (unitSquareAt 0 0 ++ unitSquareAt 10 0))
      ((measureShapes qKernel qOps
        (squareRun (unitSquareAt 0 0 ++ unitSquareAt 10 0)).shapes).2)
      (by rfl) (by decide) (by decide)⟩

theorem optContains_eq_true {P : Type} (contains : P → P → Bool)
    (a b : Shape K P) (h : optContains contains a b = true) :
    ∃ p q, a.polygon = some p ∧ b.polygon = some q ∧ contains p q = true := by
  unfold optContains at h
  rcases hp : a.polygon with _ | p <;> rw [hp] at h
  · simp at h
  rcases hq : b.polygon with _ | q <;> rw [hq] at h
  · simp at h
  exact ⟨p, q, rfl, rfl, h⟩

theorem includesLoop_timeout {P : Type} (contains : P → P → Bool)
    (elapsed : ℕ → K) (main : Shape K P) :
    ∀ (k : ℕ) (l : List (Shape K P)) (i : ℕ), k < l.length →
      (∀ j, j ≤ k → optContains contains main (l.getD j default) = true) →
      MAIN_INCLUDES_CHECK_TIMEOUT < elapsed (i + k) →
      includesLoop contains elapsed main l i = .ok true := by
  intro k
  induction k with
  | zero =>
    intro l i hk hc ht
    match l, hk with
    | s :: rest, _ =>
      rcases optContains_eq_true contains main s (hc 0 (le_refl 0)) with
        ⟨pm, ps, hpm, hps, hcont⟩
      rw [includesLoop_cons, hpm, hps]
      have ht' : MAIN_INCLUDES_CHECK_TIMEOUT < elapsed i := by simpa using ht
      simp [hcont, ht']
  | succ k ih =>
    intro l i hk hc ht
    match l, hk with
    | s :: rest, hk =>
      rcases optContains_eq_true contains main s (hc 0 (Nat.zero_le _)) with
        ⟨pm, ps, hpm, hps, hcont⟩
      rw [includesLoop_cons, hpm, hps]
      by_cases he : MAIN_INCLUDES_CHECK_TIMEOUT < elapsed i
      · simp [hcont, he]
      · simp only [hcont, not_true, Bool.false_eq_true, if_false, he, if_true]
        have hrec : includesLoop contains elapsed main rest (i + 1) = .ok true := by
          refine ih rest (i + 1) ?_ ?_ ?_
          · have hk' : k + 1 < rest.length + 1 := by simpa using hk
            omega
          · intro j hj
            have := hc (j + 1) (by omega)
            simpa using this
          · have harith : i + 1 + k = i + (k + 1) := by omega
            rw [harith]
            exact ht
        simp [he, hrec]

/-- C7: if the wall-clock budget is exceeded before any containment failure is
met, the run does not fail: the returned main shape is marked
`skippedIncludesCheck` and `findMainShape` succeeds; and whenever
`findMainShape` succeeds with a flagged main shape, `getFileData` returns the
computed area, perimeter, width and height, adding only the
skipped-check note to the errors. -/
theorem timeout_flags_not_fails {P : Type} (kern : Kernel K P) :
    (∀ (elapsed : ℕ → K) (s0 s1 : Shape K P) (rest : List (Shape K P))
        (idx? : Option ℕ) (k : ℕ),
      selectMainLoop kern.contains s0 (s1 :: rest) 1 = .ok idx? →
      k < ((s0 :: s1 :: rest).eraseIdx
        (idx?.getD ((s0 :: s1 :: rest).length - 1))).length →
      (∀ j, j ≤ k → optContains kern.contains
        ((s0 :: s1 :: rest).getD (idx?.getD ((s0 :: s1 :: rest).length - 1)) default)
        (((s0 :: s1 :: rest).eraseIdx
          (idx?.getD ((s0 :: s1 :: rest).length - 1))).getD j default) = true) →
      MAIN_INCLUDES_CHECK_TIMEOUT < elapsed (1 + k) →
      mainFlagged (findMainShape kern.contains elapsed (s0 :: s1 :: rest)) = true ∧
        runOk (findMainShape kern.contains elapsed (s0 :: s1 :: rest)) = true) ∧
    (∀ (ops : RealOps K) (elapsed : ℕ → K) (dxf : DxfData K) (m : Shape K P)
        (l : List (Shape K P)) (p : P),
      findMainShape kern.contains elapsed
          (measureShapes kern ops (findShapes P ops (findEdges ops dxf)).shapes).1 =
        .ok (some m, l) →
      m.skippedIncludesCheck = true →
      m.polygon = some p →
      getFileData P kern ops elapsed (some dxf) = .ok
        { area := m.area,
          perimeter := l.foldl (fun acc s => acc + s.perimeter) 0,
          unknownEntities := (findShapes P ops (findEdges ops dxf)).unknownEntities,
          errors := (measureShapes kern ops
              (findShapes P ops (findEdges ops dxf)).shapes).2 ++
            ["Skipped \"all shapes in main shape\" check"],
          splineExists := decide
            (tallyCount (findShapes P ops (findEdges ops dxf)).unknownEntities
              "SPLINE" ≠ 0),
          shapes := l.map (fun s => { area := s.area, perimeter := s.perimeter }),
          width := (MAX_BORDER_DISTANCE - kern.distanceTo p probeRight) -
            (kern.distanceTo p probeLeft - MAX_BORDER_DISTANCE),
          height := (MAX_BORDER_DISTANCE - kern.distanceTo p probeTop) -
            (kern.distanceTo p probeBottom - MAX_BORDER_DISTANCE) }) := by
  constructor
  · intro elapsed s0 s1 rest idx? k hsel hk hc ht
    have hinc := includesLoop_timeout kern.contains elapsed
      ((s0 :: s1 :: rest).getD (idx?.getD ((s0 :: s1 :: rest).length - 1)) default)
      k ((s0 :: s1 :: rest).eraseIdx (idx?.getD ((s0 :: s1 :: rest).length - 1)))
      1 hk hc ht
    rw [findMainShape_cons₂, hsel]
    have hv := verifyMain_eq kern.contains elapsed (s0 :: s1 :: rest)
      (idx?.getD ((s0 :: s1 :: rest).length - 1))
    rw [hinc] at hv
    constructor
    · show mainFlagged (verifyMain kern.contains elapsed (s0 :: s1 :: rest)
        (idx?.getD ((s0 :: s1 :: rest).length - 1))) = true
      rw [hv]
      simp [mainFlagged]
    · show runOk (verifyMain kern.contains elapsed (s0 :: s1 :: rest)
        (idx?.getD ((s0 :: s1 :: rest).length - 1))) = true
      rw [hv]
      rfl
  · intro ops elapsed dxf m l p hfm hflag hpoly
    simp only [getFileData]
    rw [hfm]
    simp only [findBounds, hpoly, hflag]
    rfl

/-- Witness for C7: the all-containments kernel with a clock already past the
budget on two disjoint unit squares. -/
theorem timeout_flags_not_fails_witness :
    (selectMainLoop qKernelNest.contains squareMainShape [squareMainShape] 1 =
      .ok (some 0)) ∧
    mainFlagged (findMainShape qKernelNest.contains (fun _ => 2000)
      (squareMainShape :: [squareMainShape])) = true ∧
    nestMain.skippedIncludesCheck = true ∧
    getFileData (List (Face ℚ)) qKernelNest qOps (fun _ => 2000) (some nestInput) = .ok
      { area := nestMain.area,
        perimeter := nestList.foldl (fun acc s => acc + s.perimeter) 0,
        unknownEntities := (findShapes (List (Face ℚ)) qOps
          (findEdges qOps nestInput)).unknownEntities,
        errors := (measureShapes qKernelNest qOps
            (findShapes (List (Face ℚ)) qOps (findEdges qOps nestInput)).shapes).2 ++
          ["Skipped \"all shapes in main shape\" check"],
        splineExists := decide
          (tallyCount (findShapes (List (Face ℚ)) qOps
            (findEdges qOps nestInput)).unknownEntities "SPLINE" ≠ 0),
        shapes := nestList.map (fun s => { area := s.area, perimeter := s.perimeter }),
        width := (MAX_BORDER_DISTANCE - qKernelNest.distanceTo nestPoly probeRight) -
          (qKernelNest.distanceTo nestPoly probeLeft - MAX_BORDER_DISTANCE),
        height := (MAX_BORDER_DISTANCE - qKernelNest.distanceTo nestPoly probeTop) -
          (qKernelNest.distanceTo nestPoly probeBottom - MAX_BORDER_DISTANCE) } :=
  ⟨by rfl,
   ((timeout_flags_not_fails qKernelNest).1 (fun _ => 2000) squareMainShape
     squareMainShape [] (some 0) 0 (by rfl) (by decide) (by decide) (by decide)).1,
   by decide,
   (timeout_flags_not_fails qKernelNest).2 qOps (fun _ => 2000) nestInput nestMain
     nestList nestPoly (by rfl) (by decide) (by rfl)⟩

theorem findEdgesEntity_etype (ops : RealOps K) (e : Entity K) :
    (findEdgesEntity ops e).etype = e.etype := by
  unfold findEdgesEntity
  split_ifs <;> rfl

theorem pointsAreEqual_self (p : Vertice K) : pointsAreEqual p p = true := by
  simp only [pointsAreEqual, sub_self, abs_zero, add_zero, decide_eq_true_eq,
    EQUAL_TRESHOLD]
  norm_num

/-- C6: a polyline explicitly marked closed (or with a trailing-vertex bulge)
gets identical connector endpoints from the normalizer, so as a stitching seed
it closes immediately — the rest of the pool is processed untouched, with no
scan for external edge matches. -/
theorem closedPolyline_seed_closes (P : Type) (ops : RealOps K) (e : Entity K)
    (hty : e.etype = "LWPOLYLINE") (hne : e.vertices ≠ [])
    (hcl : e.shape = true ∨ bulgeTruthy (e.vertices.getLastD dfltV) = true) :
    (findEdgesEntity ops e).edges =
      some (e.vertices.getD 0 dfltV, e.vertices.getD 0 dfltV) ∧
    ∀ (rest : List (Entity K)) (fuel : ℕ),
      findShapesLoop P ops (fuel + 1) (findEdgesEntity ops e :: rest) =
        { entities := transofrmEntity ops (findEdgesEntity ops e),
          start := e.vertices.getD 0 dfltV, endv := e.vertices.getD 0 dfltV,
          perimeter := 0, area := 0, closed := true,
          single := false } :: findShapesLoop P ops fuel rest := by
  have hcond : (e.shape || bulgeTruthy (e.vertices.getLastD dfltV)) = true := by
    rcases hcl with h | h <;> rw [h] <;> simp
  have hedges : (findEdgesEntity ops e).edges =
      some (e.vertices.getD 0 dfltV, e.vertices.getD 0 dfltV) := by
    unfold findEdgesEntity
    rw [hty, if_neg (by decide : ¬ ("LWPOLYLINE" : String) = "ARC"),
      if_neg (by decide : ¬ ("LWPOLYLINE" : String) = "LINE"), if_pos rfl]
    simp only [hcond, if_true]
    rw [List.getLastD_concat]
  refine ⟨hedges, ?_⟩
  intro rest fuel
  have hnotc : decide ((findEdgesEntity ops e).etype = "CIRCLE") = false := by
    rw [findEdgesEntity_etype, hty]
    decide
  simp only [findShapesLoop, hedges, Option.getD_some, pointsAreEqual_self, if_true,
    hnotc]

/-- Witness for C6 on a concrete closed triangle polyline. -/
theorem closedPolyline_seed_closes_witness :
    cpoly.etype = "LWPOLYLINE" ∧
    cpoly.vertices ≠ [] ∧
    (cpoly.shape = true ∨ bulgeTruthy (cpoly.vertices.getLastD dfltV) = true) ∧
    (findEdgesEntity qOps cpoly).edges =
      some (cpoly.vertices.getD 0 dfltV, cpoly.vertices.getD 0 dfltV) ∧
    findShapesLoop Unit qOps 2 (findEdgesEntity qOps cpoly :: cpolyRest) =
      { entities := transofrmEntity qOps (findEdgesEntity qOps cpoly),
        start := cpoly.vertices.getD 0 dfltV, endv := cpoly.vertices.getD 0 dfltV,
        perimeter := 0, area := 0, closed := true,
        single := false } :: findShapesLoop Unit qOps 1 cpolyRest :=
  ⟨rfl, by decide, Or.inl rfl,
   (closedPolyline_seed_closes Unit qOps cpoly rfl (by decide) (Or.inl rfl)).1,
   (closedPolyline_seed_closes Unit qOps cpoly rfl (by decide) (Or.inl rfl)).2
     cpolyRest 1⟩

theorem attachEntity_closed {P : Type} (ops : RealOps K) (sh : Shape K P)
    (e : Entity K) (k : MatchKind) : (attachEntity ops sh e k).closed = sh.closed := by
  cases k <;> rfl

theorem findMatch_perm (st en : Vertice K) :
    ∀ (pool : List (Entity K)) (t : Entity K × MatchKind × List (Entity K)),
      findMatch st en pool = some t → pool.Perm (t.1 :: t.2.2) := by
  intro pool
  induction pool with
  | nil => intro t h; simp [findMatch] at h
  | cons x xs ih =>
    intro t h
    unfold findMatch at h
    rcases hm : matchEntity st en x with _ | k <;> rw [hm] at h
    · rcases hf : findMatch st en xs with _ | u <;> rw [hf] at h
      · simp at h
      · simp only [Option.some.injEq] at h
        subst h
        have hxs := (ih u hf).cons x
        exact hxs.trans (List.Perm.swap u.1 x u.2.2)
    · simp only [Option.some.injEq] at h
      subst h
      exact List.Perm.refl _

theorem growShape_sub {P : Type} (ops : RealOps K) :
    ∀ (fuel : ℕ) (sh : Shape K P) (pool : List (Entity K)) (e' : Entity K),
      e' ∈ (growShape P ops fuel sh pool).2 → e' ∈ pool := by
  intro fuel
  induction fuel with
  | zero => intro sh pool e' h; exact h
  | succ f ih =>
    intro sh pool e' h
    simp only [growShape] at h
    rcases hm : findMatch sh.start sh.endv pool with _ | t <;> rw [hm] at h
    · exact h
    · obtain ⟨e, k, rest⟩ := t
      have hperm := findMatch_perm sh.start sh.endv pool (e, k, rest) hm
      by_cases hp : pointsAreEqual (attachEntity ops sh e k).start
          (attachEntity ops sh e k).endv = true
      · simp only [hp, if_true] at h
        exact hperm.symm.subset (by simp [h])
      · simp only [hp, if_false] at h
        have := ih (attachEntity ops sh e k) rest e' h
        exact hperm.symm.subset (by simp [this])

theorem growShape_closed_pointsEq {P : Type} (ops : RealOps K) :
    ∀ (fuel : ℕ) (sh : Shape K P) (pool : List (Entity K)),
      sh.closed = false →
      (growShape P ops fuel sh pool).1.closed = true →
      pointsAreEqual (growShape P ops fuel sh pool).1.start
        (growShape P ops fuel sh pool).1.endv = true := by
  intro fuel
  induction fuel with
  | zero =>
    intro sh pool h0 hc
    simp only [growShape] at hc
    rw [h0] at hc
    exact absurd hc (by simp)
  | succ f ih =>
    intro sh pool h0 hc
    simp only [growShape] at hc ⊢
    rcases hm : findMatch sh.start sh.endv pool with _ | t
    · rw [hm] at hc
      dsimp only at hc
      rw [h0] at hc
      exact absurd hc (by simp)
    · obtain ⟨e, k, rest⟩ := t
      rw [hm] at hc
      dsimp only at hc ⊢
      by_cases hp : pointsAreEqual (attachEntity ops sh e k).start
          (attachEntity ops sh e k).endv = true
      · rw [if_pos hp] at hc ⊢
        exact hp
      · rw [if_neg hp] at hc ⊢
        exact ih (attachEntity ops sh e k) rest
          (by rw [attachEntity_closed]; exact h0) hc

theorem findEdges_circle_edges (ops : RealOps K) (e₀ : Entity K)
    (h : (findEdgesEntity ops e₀).etype = "CIRCLE") :
    ∃ p, (findEdgesEntity ops e₀).edges = some (p, p) := by
  rw [findEdgesEntity_etype] at h
  refine ⟨{ x := (e₀.center.getD dfltV).x + e₀.radius.getD 0,
            y := (e₀.center.getD dfltV).y }, ?_⟩
  unfold findEdgesEntity
  rw [h, if_neg (by decide : ¬ ("CIRCLE" : String) = "ARC"),
    if_neg (by decide : ¬ ("CIRCLE" : String) = "LINE"),
    if_neg (by decide : ¬ ("CIRCLE" : String) = "LWPOLYLINE"), if_pos rfl]

theorem findShapesLoop_closed_pointsEq (P : Type) (ops : RealOps K) :
    ∀ (fuel : ℕ) (pool : List (Entity K)),
      (∀ e ∈ pool, e.etype = "CIRCLE" → ∃ p, e.edges = some (p, p)) →
      ∀ s ∈ findShapesLoop P ops fuel pool, s.closed = true →
        pointsAreEqual s.start s.endv = true := by
  intro fuel
  induction fuel with
  | zero => intro pool _ s hs; simp [findShapesLoop] at hs
  | succ f ih =>
    intro pool hpool s hs hc
    match pool with
    | [] => simp [findShapesLoop] at hs
    | e :: rest =>
      simp only [findShapesLoop] at hs
      by_cases hpe : pointsAreEqual (e.edges.getD (dfltV, dfltV)).1
          (e.edges.getD (dfltV, dfltV)).2 = true
      · rw [if_pos hpe] at hs
        rcases List.mem_cons.1 hs with rfl | hst
        · exact hpe
        · exact ih rest (fun e' he' ht => hpool e' (List.mem_cons_of_mem e he') ht)
            s hst hc
      · rw [if_neg hpe] at hs
        have hnc : decide (e.etype = "CIRCLE") = false := by
          by_cases hcirc : e.etype = "CIRCLE"
          · rcases hpool e (List.mem_cons_self e rest) hcirc with ⟨p, hep⟩
            rw [hep] at hpe
            exact absurd (pointsAreEqual_self p) hpe
          · simp [hcirc]
        rcases List.mem_cons.1 hs with rfl | hst
        · refine growShape_closed_pointsEq ops rest.length _ rest ?_ hc
          simp [hnc]
        · refine ih _ ?_ s hst hc
          intro e' he' ht
          exact hpool e'
            (List.mem_cons_of_mem e (growShape_sub ops rest.length _ rest e' he')) ht

/-- C4: every shape the stitcher emits with `closed = true` (circle seeds
included) has start and end endpoints within L1 distance `0.01`. -/
theorem closed_shape_endpoints_coincide {P : Type} (ops : RealOps K)
    (dxf : DxfData K) (s : Shape K P)
    (hs : s ∈ (findShapes P ops (findEdges ops dxf)).shapes)
    (hc : s.closed = true) :
    |s.start.x - s.endv.x| + |s.start.y - s.endv.y| < 1 / 100 := by
  simp only [findShapes] at hs
  have hpool : ∀ e ∈ (findEdges ops dxf).entities.filter (fun e => e.edges.isSome),
      e.etype = "CIRCLE" → ∃ p, e.edges = some (p, p) := by
    intro e he hcirc
    have he' : e ∈ (findEdges ops dxf).entities := List.mem_of_mem_filter he
    simp only [findEdges, List.mem_map] at he'
    rcases he' with ⟨e₀, _, rfl⟩
    exact findEdges_circle_edges ops e₀ hcirc
  have hpe := findShapesLoop_closed_pointsEq P ops
    ((findEdges ops dxf).entities.filter (fun e => e.edges.isSome)).length
    ((findEdges ops dxf).entities.filter (fun e => e.edges.isSome)) hpool s hs hc
  simp only [pointsAreEqual, decide_eq_true_eq, EQUAL_TRESHOLD] at hpe
  exact hpe

/-- Witness for C4 on the stitched unit square. -/
theorem closed_shape_endpoints_coincide_witness :
    ((squareRun (unitSquareAt 0 0)).shapes.getD 0 default ∈
      (squareRun (unitSquareAt 0 0)).shapes) ∧
    ((squareRun (unitSquareAt 0 0)).shapes.getD 0 default).closed = true ∧
    |((squareRun (unitSquareAt 0 0)).shapes.getD 0 default).start.x -
        ((squareRun (unitSquareAt 0 0)).shapes.getD 0 default).endv.x| +
      |((squareRun (unitSquareAt 0 0)).shapes.getD 0 default).start.y -
        ((squareRun (unitSquareAt 0 0)).shapes.getD 0 default).endv.y| < 1 / 100 :=
  ⟨by decide, by decide,
   closed_shape_endpoints_coincide qOps ⟨unitSquareAt 0 0⟩
     ((squareRun (unitSquareAt 0 0)).shapes.getD 0 default) (by decide) (by decide)⟩

theorem transofrmEntity_swapEdges_length (ops : RealOps K) (e : Entity K) :
    (transofrmEntity ops (swapEdges e)).length = (transofrmEntity ops e).length := by
  unfold transofrmEntity
  have hety : (swapEdges e).etype = e.etype := rfl
  have hvert : (swapEdges e).vertices = e.vertices := rfl
  have hrev : (swapEdges e).reverse = true := rfl
  rw [hety, hvert, hrev]
  by_cases h : e.etype ≠ "LWPOLYLINE"
  · rw [if_pos h, if_pos h]
    rfl
  · rw [if_neg h, if_neg h]
    rcases hr : e.reverse <;> simp [hr]

theorem attachEntity_length {P : Type} (ops : RealOps K) (sh : Shape K P)
    (e : Entity K) (k : MatchKind) :
    (attachEntity ops sh e k).entities.length =
      sh.entities.length + (transofrmEntity ops e).length := by
  cases k <;>
    simp [attachEntity, transofrmEntity_swapEdges_length, Nat.add_comm]

theorem growShape_conserve {P : Type} (ops : RealOps K) :
    ∀ (fuel : ℕ) (sh : Shape K P) (pool : List (Entity K)),
      (growShape P ops fuel sh pool).1.entities.length +
        ((growShape P ops fuel sh pool).2.map
          (fun e => (transofrmEntity ops e).length)).sum =
      sh.entities.length +
        (pool.map (fun e => (transofrmEntity ops e).length)).sum := by
  intro fuel
  induction fuel with
  | zero => intro sh pool; rfl
  | succ f ih =>
    intro sh pool
    simp only [growShape]
    rcases hm : findMatch sh.start sh.endv pool with _ | t
    · rfl
    · obtain ⟨e, k, rest⟩ := t
      dsimp only
      have hperm := (findMatch_perm sh.start sh.endv pool (e, k, rest) hm).map
        (fun e => (transofrmEntity ops e).length)
      have hsum : (pool.map (fun e => (transofrmEntity ops e).length)).sum =
          (transofrmEntity ops e).length +
            (rest.map (fun e => (transofrmEntity ops e).length)).sum := by
        simpa using hperm.sum_eq
      have hatt := attachEntity_length ops sh e k
      by_cases hp : pointsAreEqual (attachEntity ops sh e k).start
          (attachEntity ops sh e k).endv = true
      · rw [if_pos hp]
        dsimp only
        rw [hsum, hatt]
        omega
      · rw [if_neg hp]
        rw [ih (attachEntity ops sh e k) rest, hsum, hatt]
        omega

theorem growShape_length_le {P : Type} (ops : RealOps K) :
    ∀ (fuel : ℕ) (sh : Shape K P) (pool : List (Entity K)),
      (growShape P ops fuel sh pool).2.length ≤ pool.length := by
  intro fuel
  induction fuel with
  | zero => intro sh pool; exact le_refl _
  | succ f ih =>
    intro sh pool
    simp only [growShape]
    rcases hm : findMatch sh.start sh.endv pool with _ | t
    · exact le_refl _
    · obtain ⟨e, k, rest⟩ := t
      dsimp only
      have hlen : pool.length = rest.length + 1 := by
        have := (findMatch_perm sh.start sh.endv pool (e, k, rest) hm).length_eq
        simpa using this
      by_cases hp : pointsAreEqual (attachEntity ops sh e k).start
          (attachEntity ops sh e k).endv = true
      · rw [if_pos hp]
        dsimp only
        omega
      · rw [if_neg hp]
        have := ih (attachEntity ops sh e k) rest
        omega

theorem findShapesLoop_fuel_sufficient (P : Type) (ops : RealOps K) :
    ∀ (fuel : ℕ) (pool : List (Entity K)), pool.length ≤ fuel →
      findShapesLoop P ops fuel pool = findShapesLoop P ops pool.length pool := by
  intro fuel
  induction fuel using Nat.strong_induction_on with
  | _ fuel ih =>
    intro pool hle
    match fuel, pool with
    | 0, [] => rfl
    | 0, e :: rest => simp at hle
    | f + 1, [] => rfl
    | f + 1, e :: rest =>
      have hr : rest.length ≤ f := by
        simp only [List.length_cons] at hle; omega
      simp only [List.length_cons, findShapesLoop]
      by_cases hpe : pointsAreEqual
          ((e.edges.getD (dfltV, dfltV)).1) ((e.edges.getD (dfltV, dfltV)).2) = true
      · rw [if_pos hpe, if_pos hpe]
        rw [ih f (by omega) rest hr, ih rest.length (by omega) rest (le_refl _)]
      · rw [if_neg hpe, if_neg hpe]
        have hgl := @growShape_length_le K _ P ops rest.length
          { entities := transofrmEntity ops e,
            start := (e.edges.getD (dfltV, dfltV)).1,
            endv := (e.edges.getD (dfltV, dfltV)).2, perimeter := 0, area := 0,
            closed := decide (e.etype = "CIRCLE"),
            single := decide (e.etype = "CIRCLE") } rest
        congr 1
        rw [ih f (by omega) _ (le_trans hgl hr),
          ih rest.length (by omega) _ hgl]

theorem findShapesLoop_conserve (P : Type) (ops : RealOps K) :
    ∀ (fuel : ℕ) (pool : List (Entity K)), pool.length ≤ fuel →
      ((findShapesLoop P ops fuel pool).map (fun s => s.entities.length)).sum =
        (pool.map (fun e => (transofrmEntity ops e).length)).sum := by
  intro fuel
  induction fuel using Nat.strong_induction_on with
  | _ fuel ih =>
    intro pool hle
    match fuel, pool with
    | 0, [] => rfl
    | 0, e :: rest => simp at hle
    | f + 1, [] => rfl
    | f + 1, e :: rest =>
      have hr : rest.length ≤ f := by
        simp only [List.length_cons] at hle; omega
      simp only [findShapesLoop]
      by_cases hpe : pointsAreEqual
          ((e.edges.getD (dfltV, dfltV)).1) ((e.edges.getD (dfltV, dfltV)).2) = true
      · rw [if_pos hpe]
        simp only [List.map_cons, List.sum_cons]
        rw [ih f (by omega) rest hr]
      · rw [if_neg hpe]
        simp only [List.map_cons, List.sum_cons]
        have hgl := @growShape_length_le K _ P ops rest.length
          { entities := transofrmEntity ops e,
            start := (e.edges.getD (dfltV, dfltV)).1,
            endv := (e.edges.getD (dfltV, dfltV)).2, perimeter := 0, area := 0,
            closed := decide (e.etype = "CIRCLE"),
            single := decide (e.etype = "CIRCLE") } rest
        rw [ih f (by omega) _ (le_trans hgl hr)]
        have hcons := @growShape_conserve K _ P ops rest.length
          { entities := transofrmEntity ops e,
            start := (e.edges.getD (dfltV, dfltV)).1,
            endv := (e.edges.getD (dfltV, dfltV)).2, perimeter := 0, area := 0,
            closed := decide (e.etype = "CIRCLE"),
            single := decide (e.etype = "CIRCLE") } rest
        simp only at hcons ⊢
        omega

/-- C9: the stitcher terminates — `pool.length` units of fuel already compute
the fixpoint of the loop (extra fuel changes nothing), because the seed and
each successful attachment remove pool entities — and every normalized pool
entity's decurved pieces end up in exactly one emitted shape: the emitted
shapes' entity counts add up to exactly the pool's decurved pieces. -/
theorem findShapes_terminates_partitions {P : Type} (ops : RealOps K) :
    (∀ (pool : List (Entity K)) (extra : ℕ),
      findShapesLoop P ops (pool.length + extra) pool =
        findShapesLoop P ops pool.length pool) ∧
    (∀ dxf : DxfData K,
      ((findShapes P ops dxf).shapes.map (fun s => s.entities.length)).sum =
        ((dxf.entities.filter (fun e => e.edges.isSome)).map
          (fun e => (transofrmEntity ops e).length)).sum) := by
  constructor
  · intro pool extra
    exact findShapesLoop_fuel_sufficient P ops (pool.length + extra) pool (by omega)
  · intro dxf
    simp only [findShapes]
    exact findShapesLoop_conserve P ops _ _ (le_refl _)

set_option maxHeartbeats 4000000 in
/-- C3: four unit-square `LINE` primitives, in any input order and with any
per-edge endpoint direction, stitch into exactly one shape; it is closed, its
measured area is `1` and its measured perimeter is `4`. -/
theorem unitSquare_permutation_invariance :
    ∀ (d : Bool × Bool × Bool × Bool) (l : List (Entity ℚ)),
      l.Perm (unitSquareLines d) →
      (squareRun l).shapes.length = 1 ∧
      ((squareRun l).shapes.getD 0 default).closed = true ∧
      (squareMeasured l).length = 1 ∧
      ((squareMeasured l).getD 0 default).area = 1 ∧
      ((squareMeasured l).getD 0 default).perimeter = 4 := by
  have key : ∀ d : Bool × Bool × Bool × Bool,
      ∀ l ∈ (unitSquareLines d).permutations',
        (squareRun l).shapes.length = 1 ∧
        ((squareRun l).shapes.getD 0 default).closed = true ∧
        (squareMeasured l).length = 1 ∧
        ((squareMeasured l).getD 0 default).area = 1 ∧
        ((squareMeasured l).getD 0 default).perimeter = 4 := by
    decide
  intro d l h
  exact key d l (List.mem_permutations'.2 h)

/-- Witness for C3 at the identity permutation with default directions. -/
theorem unitSquare_permutation_invariance_witness :
    (unitSquareLines (false, false, false, false)).Perm
      (unitSquareLines (false, false, false, false)) ∧
    ((squareRun (unitSquareLines (false, false, false, false))).shapes.length = 1 ∧
      ((squareRun (unitSquareLines (false, false, false, false))).shapes.getD 0
        default).closed = true ∧
      (squareMeasured (unitSquareLines (false, false, false, false))).length = 1 ∧
      ((squareMeasured (unitSquareLines (false, false, false, false))).getD 0
        default).area = 1 ∧
      ((squareMeasured (unitSquareLines (false, false, false, false))).getD 0
        default).perimeter = 4) :=
  ⟨List.Perm.refl _,
   unitSquare_permutation_invariance (false, false, false, false) _ (List.Perm.refl _)⟩

end Dxf2Price
